import Mathlib

/-!
Verification of the pywikiapi request/retry/continuation engine
(src/pywikiapi/Site.py) via a shallow embedding in Lean 4.

JSON values are modelled by the inductive `JVal`; Python dictionaries are
association lists preserving insertion order (Python 3.7+ dict semantics).
Python runtime exceptions arising from duck-typed access (TypeError,
KeyError, AttributeError) are modelled explicitly through `PyExc` and the
`Except` monad, since MediaWiki response envelopes are dynamically typed.
-/

namespace PyWikiApi

/-- A generic JSON tree, the result of decoding a server response body. -/
inductive JVal where
  | null
  | bool (b : Bool)
  | num (n : Int)
  | str (s : String)
  | arr (xs : List JVal)
  | obj (fields : List (String × JVal))
  deriving Repr

/-- First-match association-list lookup (Python dict subscript on a
string-keyed dict; real dicts are duplicate-free, so first match is exact). -/
def alookup : List (String × JVal) → String → Option JVal
  | [], _ => none
  | (k2, v) :: rest, k => if k2 = k then some v else alookup rest k

/-- Whether a string key occurs in an association list (`k in d`). -/
def hasKey (fs : List (String × JVal)) (k : String) : Bool :=
  (alookup fs k).isSome

/-- Replace the value at an existing key in place, preserving position
(Python dict assignment for a key that is already present). -/
def setKey : List (String × JVal) → String → JVal → List (String × JVal)
  | [], _, _ => []
  | (k2, v2) :: rest, k, v =>
      if k2 = k then (k2, v) :: rest else (k2, v2) :: setKey rest k v

/-- Python runtime exceptions that the duck-typed response handling can
raise when a JSON value does not have the expected shape. -/
inductive PyExc where
  | keyError
  | typeError
  | attrError
  deriving Repr, DecidableEq

mutual

/-- Python `==` on decoded JSON values: scalars compare by value with the
numeric-boolean identification (`True == 1`), lists compare elementwise in
order, dicts compare as unordered mappings (same size, every key of the
left bound to an equal value on the right). -/
def pyEq : JVal → JVal → Bool
  | .null, .null => true
  | .bool a, .bool b => a == b
  | .bool a, .num b => (if a then (1 : Int) else 0) == b
  | .num a, .bool b => a == (if b then (1 : Int) else 0)
  | .num a, .num b => a == b
  | .str a, .str b => a == b
  | .arr xs, .arr ys => pyEqList xs ys
  | .obj xs, .obj ys => xs.length == ys.length && pyEqObj xs ys
  | _, _ => false

/-- Elementwise Python `==` on lists. -/
def pyEqList : List JVal → List JVal → Bool
  | [], [] => true
  | x :: xs, y :: ys => pyEq x y && pyEqList xs ys
  | _, _ => false

/-- Every key of the left dict is bound to a `pyEq`-equal value in the
right dict. -/
def pyEqObj : List (String × JVal) → List (String × JVal) → Bool
  | [], _ => true
  | (k, v) :: rest, ys =>
      (match alookup ys k with
       | some w => pyEq v w
       | none => false) && pyEqObj rest ys

end

/-- Python subscript `v[k]` with a string key `k`: dict lookup (KeyError
when missing); every other value raises TypeError for a string index. -/
def pyGet : JVal → String → Except PyExc JVal
  | .obj fs, k =>
      match alookup fs k with
      | some v => .ok v
      | none => .error .keyError
  | _, _ => .error .typeError

/-- Python membership `k in v` for a string `k`: dict key test, list
element test (by equality), substring test on strings; TypeError on
non-container scalars. -/
def inOp : JVal → String → Except PyExc Bool
  | .obj fs, k => .ok (hasKey fs k)
  | .arr xs, k => .ok (xs.any (fun x => pyEq x (.str k)))
  | .str s, k => .ok (if k = "" then true else (s.splitOn k).length > 1)
  | _, _ => .error .typeError

/-- Python iteration `for x in v`: lists yield elements, dicts yield their
keys, strings yield one-character strings; scalars raise TypeError. -/
def pyIter : JVal → Except PyExc (List JVal)
  | .arr xs => .ok xs
  | .obj fs => .ok (fs.map (fun kv => .str kv.1))
  | .str s => .ok (s.toList.map (fun c => .str (String.mk [c])))
  | _ => .error .typeError

/-- Whether a value may be used as a Python set element or dict key
(lists and dicts are unhashable). -/
def jvalHashable : JVal → Bool
  | .arr _ => false
  | .obj _ => false
  | _ => true

/-- `Site._merge_page(a, b)` (Site.py lines 384-398), with the incoming
fragment `b` given as its field list (at every call site `b` is a dict:
the top-level call passes a page object and the recursive call is guarded
by `isinstance(val, dict)`).  For each field of `b` in order: if `a` also
has the key, a dict value recurses, a list value requires the existing
value to be a list and concatenates (anything else is a TypeError), and
any other value overwrites; a fresh key is appended.  `none` models the
TypeError raised whenever `a` is not a dict and some field must actually
be processed (`a[k]` indexing or `a[k] = val` assignment on a non-dict);
with an empty `b` the loop body never runs and `a` is returned unchanged. -/
def merge_page : JVal → List (String × JVal) → Option JVal
  | a, [] => some a
  | a, (k, v) :: rest =>
      match a with
      | .obj fa =>
          match alookup fa k with
          | some av =>
              match v with
              | .obj fv =>
                  match merge_page av fv with
                  | some m => merge_page (.obj (setKey fa k m)) rest
                  | none => none
              | .arr xs =>
                  match av with
                  | .arr ys => merge_page (.obj (setKey fa k (.arr (ys ++ xs)))) rest
                  | _ => none
              | _ => merge_page (.obj (setKey fa k v)) rest
          | none => merge_page (.obj (fa ++ [(k, v)])) rest
      | _ => none

/-- A dynamically-typed Python value passed as an API call parameter.
`list` also stands for the other non-string iterables (tuples, sets fed in
a definite order); `dt` is a `datetime` with an optional fixed timezone
offset in minutes (`none` = naive). -/
inductive PyVal where
  | str (s : String)
  | int (n : Int)
  | bool (b : Bool)
  | pynone
  | dt (y mo d h mi s : Nat) (tzOffsetMin : Option Int)
  | list (xs : List PyVal)
  deriving Repr

/-- Zero-pad a decimal rendering to width `w` (strftime padding). -/
def pad (w : Nat) (n : Nat) : String :=
  let s := toString n
  if s.length < w then String.mk (List.replicate (w - s.length) '0') ++ s else s

/-- `value.strftime('%Y-%m-%dT%H:%M:%SZ')` (Site.py line 218). -/
def fmtDt (y mo d h mi s : Nat) : String :=
  pad 4 y ++ "-" ++ pad 2 mo ++ "-" ++ pad 2 d ++ "T" ++
    pad 2 h ++ ":" ++ pad 2 mi ++ ":" ++ pad 2 s ++ "Z"

mutual

/-- Python `repr()` restricted to the parameter value types in scope
(element rendering used by `str` on a list).  String escaping and the
repr of aware datetimes are approximated: no claim exercises them. -/
def pyRepr : PyVal → String
  | .str s => "\x27" ++ s ++ "\x27"
  | .int n => toString n
  | .bool b => if b then "True" else "False"
  | .pynone => "None"
  | .dt y mo d h mi s tz =>
      "datetime.datetime(" ++ toString y ++ ", " ++ toString mo ++ ", " ++
        toString d ++ ", " ++ toString h ++ ", " ++ toString mi ++
        (if s ≠ 0 then ", " ++ toString s else "") ++
        (match tz with
         | some _ => ", tzinfo=datetime.timezone.utc"
         | none => "") ++ ")"
  | .list xs => "[" ++ String.intercalate ", " (pyReprList xs) ++ "]"

/-- `repr()` of each element of a list. -/
def pyReprList : List PyVal → List String
  | [] => []
  | x :: xs => pyRepr x :: pyReprList xs

end

/-- Python `str()` on the values that can reach the final
`return str(value)` branch of `update_value` (strings, ints, lists). -/
def pyStr : PyVal → String
  | .str s => s
  | .list xs => pyRepr (.list xs)
  | v => pyRepr v

/-- The inner `update_value` closure of `Site._prepare_call`
(Site.py lines 209-221): `None` stays absent, a datetime must be naive or
have a zero UTC offset (`ValueError` otherwise, modelled as `.error ()`)
and renders as a fixed-format UTC timestamp, `True` becomes the presence
marker string and `False` becomes absent, everything else is `str()`-ed.
Python checks `isinstance(value, datetime)` before `isinstance(value,
bool)`, and non-zero `utcoffset` is what makes the tz check truthy. -/
def update_value : PyVal → Except Unit (Option String)
  | .pynone => .ok none
  | .dt y mo d h mi s tz =>
      match tz with
      | some off =>
          if off = 0 then .ok (some (fmtDt y mo d h mi s)) else .error ()
      | none => .ok (some (fmtDt y mo d h mi s))
  | .bool b => .ok (if b then some "1" else none)
  | v => .ok (some (pyStr v))

/-- One iteration of the parameter loop of `Site._prepare_call`
(Site.py lines 223-238) for a single value.  A non-string iterable maps
`update_value` over its elements, drops the `None` results and pipe-joins
the rest — the key is always kept, even when the join is empty.  A scalar
goes through `update_value` directly; `none` means the key is deleted. -/
def coerce_param : PyVal → Except Unit (Option String)
  | .list xs =>
      (xs.mapM update_value).map
        (fun cs => some (String.intercalate "|" (cs.filterMap id)))
  | v => update_value v

/-- The parameter-normalization loop of `Site._prepare_call` (Site.py
lines 223-238) over the caller's keyword arguments in order, after the
magic CAPS directives have been stripped: each value is coerced by
`coerce_param`; an absent coercion deletes the key, otherwise the key is
bound to the coerced string.  A `ValueError` from a bad datetime aborts
the whole call. -/
def normalize_params : List (String × PyVal) → Except Unit (List (String × String))
  | [] => .ok []
  | (k, v) :: rest => do
      let c ← coerce_param v
      let tail ← normalize_params rest
      match c with
      | some s => .ok ((k, s) :: tail)
      | none => .ok tail

/-- Model of Python `float(s)` on header strings: optional surrounding
whitespace, optional sign, decimal mantissa with optional fraction,
optional exponent; `none` models the `ValueError` raised on anything
else.  (The `inf`/`nan`/underscore literal forms are outside the model;
no claim exercises them.) -/
def natOfDigits (cs : List Char) : Nat :=
  cs.foldl (fun a c => a * 10 + (c.toNat - 48)) 0

/-- Exponent part of a Python float literal, as a rational factor. -/
def pyExpFactor (cs : List Char) : Option ℚ :=
  let p : Bool × List Char :=
    match cs with
    | '+' :: t => (false, t)
    | '-' :: t => (true, t)
    | t => (false, t)
  let ds := p.2.takeWhile Char.isDigit
  let rest := p.2.dropWhile Char.isDigit
  if ds = [] ∨ rest ≠ [] then none
  else some (if p.1 then ((10 : ℚ) ^ natOfDigits ds)⁻¹ else (10 : ℚ) ^ natOfDigits ds)

/-- Unsigned body of a Python float literal. -/
def pyFloatCore (cs : List Char) : Option ℚ :=
  let ip := cs.takeWhile Char.isDigit
  match cs.dropWhile Char.isDigit with
  | [] => if ip = [] then none else some (natOfDigits ip)
  | '.' :: rest2 =>
      let fp := rest2.takeWhile Char.isDigit
      let rest3 := rest2.dropWhile Char.isDigit
      if ip = [] ∧ fp = [] then none
      else
        let mant : ℚ := (natOfDigits ip : ℚ) + (natOfDigits fp : ℚ) / (10 : ℚ) ^ fp.length
        match rest3 with
        | [] => some mant
        | c :: rest4 =>
            if c = 'e' ∨ c = 'E' then (pyExpFactor rest4).map (fun f => mant * f)
            else none
  | c :: rest4 =>
      if c = 'e' ∨ c = 'E' then
        if ip = [] then none
        else (pyExpFactor rest4).map (fun f => (natOfDigits ip : ℚ) * f)
      else none

/-- Surrounding-whitespace strip, as `float()` performs on its input. -/
def stripChars (cs : List Char) : List Char :=
  ((cs.dropWhile Char.isWhitespace).reverse.dropWhile Char.isWhitespace).reverse

/-- `float(s)`: `none` models `ValueError`. -/
def pyFloat (s : String) : Option ℚ :=
  match stripChars s.toList with
  | '+' :: t => pyFloatCore t
  | '-' :: t => (pyFloatCore t).map (fun q => -q)
  | t => pyFloatCore t

/-- The `Site` configuration fields consulted by the `__call__` retry
loop (Site.py lines 59-79), plus the logger levels: `warnEnabled` and
`infoEnabled` model `logger.isEnabledFor(logging.WARNING)` and
`logger.isEnabledFor(logging.INFO)` of the configured logger. -/
structure SiteCfg where
  retry_on_lag_error : Int := 50
  retry_on_connection_error : Int := 10
  retry_after_conn : ℚ := 5
  pre_request_delay : ℚ := 0
  warnEnabled : Bool := true
  infoEnabled : Bool := true

/-- One HTTP response as seen by the loop: status code, the raw
`Retry-After` header if present, the decoded JSON body (`none` when the
body is not valid JSON) and the raw text body. -/
structure HttpResponse where
  status : Nat
  retryAfter : Option String := none
  bodyJson : Option JVal := none
  bodyText : String := ""

/-- What one `self.request(...)` attempt produces at the transport level:
a `requests.exceptions.ConnectionError`, or an HTTP response. -/
inductive Attempt where
  | connError
  | resp (r : HttpResponse)

/-- One `time.sleep` performed by the loop, tagged with its source. -/
inductive SleepEvent where
  | preDelay (q : ℚ)
  | connWait (q : ℚ)
  | lagWait (q : ℚ)
  deriving Repr

/-- How one `Site.__call__` resolves. -/
inductive CallOutcome where
  | success (data : JVal)
  | serverError (payload : JVal)
  | httpError (status : Nat) (body : JVal ⊕ String)
  | connFailure
  | valueError
  | decodeError
  | pyExcRaised (e : PyExc)
  | outOfAttempts

/-- `requests.Response.ok`: `raise_for_status` raises exactly for the 4xx
and 5xx ranges. -/
def respOk (status : Nat) : Bool :=
  ¬ (400 ≤ status ∧ status < 600)

/-- The payload attached to the `ApiError('Call failed', ...)` raised by
`Site.request` (Site.py lines 427-431): the decoded JSON body when the
body parses, else the raw text body. -/
def requestErrBody (r : HttpResponse) : JVal ⊕ String :=
  match r.bodyJson with
  | some j => .inl j
  | none => .inr r.bodyText

/-- The `try: data['error']['code'] != 'maxlag' ... except KeyError`
classification (Site.py lines 148-152): `ok true` means the maxlag retry
path is taken, `ok false` means break out of the loop (either no maxlag,
or a `KeyError` that the code catches); a TypeError from subscripting a
non-dict propagates. -/
def classifyMaxlag (data : JVal) : Except PyExc Bool :=
  match pyGet data "error" with
  | .error .keyError => .ok false
  | .error e => .error e
  | .ok err =>
      match pyGet err "code" with
      | .error .keyError => .ok false
      | .error e => .error e
      | .ok c => .ok (pyEq c (.str "maxlag"))

/-- `float(response.headers.get('Retry-After', 5))` (Site.py line 154):
the literal default `5` when the header is absent; a present header is
parsed by `float`, whose `ValueError` is modelled by `none`. -/
def retryAfterOf (r : HttpResponse) : Option ℚ :=
  match r.retryAfter with
  | none => some 5
  | some s => pyFloat s

/-- One step of the warnings log-message formatting (Site.py line 184):
`vv[1]['warnings'] if 'warnings' in vv[1] else vv[1]` — evaluated only
for its possible exceptions, since `str()` itself always succeeds. -/
def fmtWarnItem (v : JVal) : Except PyExc Unit := do
  let b ← inOp v "warnings"
  if b then
    let _ ← pyGet v "warnings"
    pure ()
  else
    pure ()

/-- The warnings formatting of Site.py lines 183-186: `.items()` on a
non-dict raises AttributeError, then each warning entry is formatted.
Log output itself is unobservable; only the exceptions matter (the sorted
order affects at most which exception fires first). -/
def warnFormat (data : JVal) : Except PyExc Unit := do
  let w ← pyGet data "warnings"
  match w with
  | .obj fs => fs.forM (fun kv => fmtWarnItem kv.2)
  | _ => .error .attrError

/-- The post-loop resolution of `Site.__call__` (Site.py lines 179-189):
a body with a top-level `error` key raises
`ApiError('Server API Error', data['error'])`; otherwise warnings are
formatted and logged when WARNING logging is enabled, and the body is
returned. -/
def resolve (cfg : SiteCfg) (data : JVal) : CallOutcome :=
  match inOp data "error" with
  | .error e => .pyExcRaised e
  | .ok true =>
      match pyGet data "error" with
      | .ok payload => .serverError payload
      | .error e => .pyExcRaised e
  | .ok false =>
      match inOp data "warnings" with
      | .error e => .pyExcRaised e
      | .ok true =>
          if cfg.warnEnabled then
            match warnFormat data with
            | .ok _ => .success data
            | .error e => .pyExcRaised e
          else .success data
      | .ok false => .success data

/-- The `while True` retry loop of `Site.__call__` (Site.py lines
126-177), with `tc`/`tcc` the `try_count`/`try_count_conn` counters and
the transport oracle given as a list of attempt outcomes consumed one per
iteration (`outOfAttempts` marks a run whose oracle ended while the loop
still wanted another attempt).  Faithful points: the exhausted-retries
`raise exc` for connection failures sits inside the
`logger.isEnabledFor(WARNING)` guard, so with WARNING logging disabled
the loop sleeps and retries regardless of the budget; the `Retry-After`
parse happens before the maxlag budget test; sleeps are logged in
order. -/
def callLoop (cfg : SiteCfg) : Nat → Nat → List Attempt → List SleepEvent × CallOutcome
  | _, _, [] => ([], .outOfAttempts)
  | tc, tcc, a :: rest =>
      let tc' := tc + 1
      let tcc' := tcc + 1
      let pre : List SleepEvent :=
        if cfg.pre_request_delay ≠ 0 then [.preDelay cfg.pre_request_delay] else []
      match a with
      | .connError =>
          let noRetryConn : Bool :=
            0 ≤ cfg.retry_on_connection_error ∧ cfg.retry_on_connection_error < (tcc' : Int)
          if noRetryConn ∧ cfg.warnEnabled then
            (pre, .connFailure)
          else
            let next := callLoop cfg tc' tcc' rest
            (pre ++ .connWait cfg.retry_after_conn :: next.1, next.2)
      | .resp r =>
          if respOk r.status then
            match r.bodyJson with
            | none => (pre, .decodeError)
            | some data =>
                match classifyMaxlag data with
                | .error e => (pre, .pyExcRaised e)
                | .ok false => (pre, resolve cfg data)
                | .ok true =>
                    match retryAfterOf r with
                    | none => (pre, .valueError)
                    | some ra =>
                        let noRetry : Bool :=
                          0 ≤ cfg.retry_on_lag_error ∧ cfg.retry_on_lag_error < (tc' : Int)
                        if noRetry then (pre, resolve cfg data)
                        else
                          let next := callLoop cfg tc' tcc' rest
                          (pre ++ .lagWait ra :: next.1, next.2)
          else
            (pre, .httpError r.status (requestErrBody r))

/-- A whole `Site.__call__` run: the loop started with zeroed attempt
counters. -/
def callRun (cfg : SiteCfg) (attempts : List Attempt) : List SleepEvent × CallOutcome :=
  callLoop cfg 0 0 attempts

/-- How a continuation stream ends: the loop broke because a response
lacked `continue`; the oracle ran out while the loop wanted another
response; or a duck-typing exception escaped. -/
inductive IterEnd where
  | finished
  | needMore
  | raised (e : PyExc)
  deriving Repr

/-- The `while True` loop of `Site.iterate` (Site.py lines 314-326) with
the successive parsed call results given as an oracle list (the request
parameters folded from `continue` objects select those responses on the
wire and are not otherwise observable; the model takes no `send`
adjustments, matching plain iteration).  Per iteration: if the action
key is present its value is yielded, then the loop breaks exactly when
the response has no `continue` key. -/
def iterGo (action : String) : List JVal → List JVal × IterEnd
  | [] => ([], .needMore)
  | result :: rest =>
      match inOp result action with
      | .error e => ([], .raised e)
      | .ok true =>
          match pyGet result action with
          | .error e => ([], .raised e)
          | .ok page =>
              match inOp result "continue" with
              | .error e => ([page], .raised e)
              | .ok false => ([page], .finished)
              | .ok true =>
                  let next := iterGo action rest
                  (page :: next.1, next.2)
      | .ok false =>
          match inOp result "continue" with
          | .error e => ([], .raised e)
          | .ok false => ([], .finished)
          | .ok true => iterGo action rest

/-- `Site.iterate` entry checks (Site.py lines 304-311): `rawcontinue`
or `formatversion` among the caller's parameter names raises `ValueError`
before any request. -/
def iterate (action : String) (kwargKeys : List String) (responses : List JVal) :
    Except Unit (List JVal × IterEnd) :=
  if kwargKeys.contains "rawcontinue" ∨ kwargKeys.contains "formatversion" then .error ()
  else .ok (iterGo action responses)

/-- First match under Python `==` in a dict keyed by page ids. -/
def dictGet : List (JVal × JVal) → JVal → Option JVal
  | [], _ => none
  | (k2, v) :: rest, k => if pyEq k2 k then some v else dictGet rest k

/-- `del d[k]`: drop the matching entry, keeping order. -/
def dictDel : List (JVal × JVal) → JVal → List (JVal × JVal)
  | [], _ => []
  | (k2, v) :: rest, k => if pyEq k2 k then rest else (k2, v) :: dictDel rest k

/-- `d[k] = v`: replace in place when the key exists, else append
(Python 3.7+ insertion-order dicts). -/
def dictSet : List (JVal × JVal) → JVal → JVal → List (JVal × JVal)
  | [], k, v => [(k, v)]
  | (k2, v2) :: rest, k, v =>
      if pyEq k2 k then (k2, v) :: rest else (k2, v2) :: dictSet rest k v

/-- Python set membership under `==`. -/
def setContains (s : List JVal) (x : JVal) : Bool :=
  s.any (fun y => pyEq y x)

/-- Python `set.add`, keeping first-insertion order for the model (the
claims only consult membership and the singleton case). -/
def setAdd (s : List JVal) (x : JVal) : List JVal :=
  if setContains s x then s else s ++ [x]

/-- The mutable state of one `Site.query_pages` run (Site.py lines
336-341 and the per-response `new_incomplete`). -/
structure QPState where
  inc : List (JVal × JVal) := []
  newInc : List (JVal × JVal) := []
  modified : List JVal := []
  missing : List JVal := []

/-- How a `query_pages` stream ends. -/
inductive QPEnd where
  | ok
  | pagesModified (ids : List JVal)
  | missingPagesErr (result : JVal)
  | raised (e : PyExc)

/-- The body of `for page in result['pages']` in `Site.query_pages`
(Site.py lines 347-368) for one page fragment: returns the updated state
and the pages yielded by this step (only "missing" pages yield here).
A "missing" page is yielded once per title (set-deduplicated); otherwise
the page id is read (`KeyError` propagates), ids in the modified set are
skipped, a buffered id is checked against the incoming `lastrevid` when
the incoming fragment has one (`p['lastrevid']` may `KeyError`), a
mismatch moves the id to the modified set and drops both fragments, and
otherwise the fragments are merged; unhashable titles/ids are the
TypeErrors `set`/`dict` operations would raise. -/
def qpPage (st : QPState) (page : JVal) : Except PyExc (QPState × List JVal) := do
  let miss ← inOp page "missing"
  if miss then
    let title ← pyGet page "title"
    if jvalHashable title then
      if setContains st.missing title then pure (st, [])
      else pure ({ st with missing := st.missing ++ [title] }, [page])
    else .error .typeError
  else
    let pid ← pyGet page "pageid"
    if jvalHashable pid then
      if setContains st.modified pid then pure (st, [])
      else
        match dictGet st.inc pid with
        | some p => do
            let st1 : QPState := { st with inc := dictDel st.inc pid }
            let hasRev ← inOp page "lastrevid"
            let mismatch ←
              if hasRev then do
                let pr ← pyGet p "lastrevid"
                let pv ← pyGet page "lastrevid"
                pure (!(pyEq pr pv))
              else
                pure false
            if mismatch then
              pure ({ st1 with modified := setAdd st1.modified pid }, [])
            else
              match page with
              | .obj fb =>
                  match merge_page p fb with
                  | some m => pure ({ st1 with newInc := dictSet st1.newInc pid m }, [])
                  | none => .error .typeError
              | _ => .error .typeError
        | none => pure ({ st with newInc := dictSet st.newInc pid page }, [])
    else .error .typeError

/-- Fold `qpPage` over one response's fragments, keeping the yields that
were already delivered when an exception interrupts the loop
(generator semantics). -/
def qpPages (st : QPState) : List JVal → List JVal × Except PyExc QPState
  | [] => ([], .ok st)
  | p :: ps =>
      match qpPage st p with
      | .error e => ([], .error e)
      | .ok (st2, ys) =>
          let next := qpPages st2 ps
          (ys ++ next.1, next.2)

/-- The response loop of `Site.query_pages` (Site.py lines 342-382): a
response without a `pages` element raises
`ApiError('Missing pages element in query result', result)`; each
fragment is processed by `qpPage`; every buffered entity not mentioned by
the current response is complete and is yielded; when the stream ends the
whole buffer is flushed and a non-empty modified set raises
`ApiPagesModifiedError` carrying the affected ids. -/
def qpGo (st : QPState) : List JVal → List JVal × QPEnd
  | [] =>
      (st.inc.map (fun kv => kv.2),
       if st.modified.isEmpty then .ok else .pagesModified st.modified)
  | result :: rest =>
      match inOp result "pages" with
      | .error e => ([], .raised e)
      | .ok false => ([], .missingPagesErr result)
      | .ok true =>
          match pyGet result "pages" with
          | .error e => ([], .raised e)
          | .ok pv =>
              match pyIter pv with
              | .error e => ([], .raised e)
              | .ok pages =>
                  let r := qpPages { st with newInc := [] } pages
                  match r.2 with
                  | .error e => (r.1, .raised e)
                  | .ok st2 =>
                      let flush := st2.inc.map (fun kv => kv.2)
                      let next := qpGo { st2 with inc := st2.newInc, newInc := [] } rest
                      (r.1 ++ flush ++ next.1, next.2)

/-- A whole `Site.query_pages` run over the stream of `query` results:
all pages yielded, in order, and how the stream ends. -/
def queryPagesRun (results : List JVal) : List JVal × QPEnd :=
  qpGo {} results

/-!  Theorems settling the claims.  -/

/-- A parameter value that takes the scalar path of the normalization
loop (everything except non-string iterables). -/
def isScalarParam : PyVal → Bool
  | .list _ => false
  | _ => true

lemma coerce_param_scalar (v : PyVal) (h : isScalarParam v = true) :
    coerce_param v = update_value v := by
  cases v <;> simp_all [isScalarParam, coerce_param]

lemma normalize_params_cons_none (k : String) (v : PyVal) (ps : List (String × PyVal))
    (h : coerce_param v = .ok none) :
    normalize_params ((k, v) :: ps) = normalize_params ps := by
  cases hp : normalize_params ps <;>
    simp [normalize_params, h, hp, Bind.bind, Except.bind]

lemma normalize_params_cons_some (k : String) (v : PyVal) (ps : List (String × PyVal))
    (s : String) (h : coerce_param v = .ok (some s)) :
    normalize_params ((k, v) :: ps) =
      (normalize_params ps).map (fun t => (k, s) :: t) := by
  cases hp : normalize_params ps <;>
    simp [normalize_params, h, hp, Bind.bind, Except.bind, Except.map]

lemma normalize_params_cons_fail (k : String) (v : PyVal) (ps : List (String × PyVal))
    (h : coerce_param v = .error ()) :
    normalize_params ((k, v) :: ps) = .error () := by
  simp [normalize_params, h, Bind.bind, Except.bind]

/-- C4 counterexample: a sequence value all of whose elements coerce to
absent does NOT have its key removed — the normalization loop always
keeps a sequence key, here bound to the empty string, so an
empty-string value is transmitted on the wire. -/
theorem all_absent_sequence_keeps_key_as_empty_string :
    normalize_params [("k", PyVal.list [PyVal.bool false])] = .ok [("k", "")]
  ∧ normalize_params [("k", PyVal.list [PyVal.bool false])] ≠ .ok [] := by
  refine ⟨rfl, ?_⟩
  intro h
  rw [show normalize_params [("k", PyVal.list [PyVal.bool false])] =
        Except.ok [("k", "")] from rfl] at h
  simp at h

/-- C4 amended: a scalar parameter whose coercion yields an absent value
has its key removed entirely from the wire payload; a sequence parameter
always keeps its key, bound to the pipe-join of the non-absent coerced
elements — which is the empty string when every element coerces to
absent. -/
theorem absent_scalar_removed_sequence_always_joined :
    (∀ (ps : List (String × PyVal)) (k : String) (v : PyVal),
       isScalarParam v = true → update_value v = .ok none →
       normalize_params ((k, v) :: ps) = normalize_params ps)
  ∧ (∀ (ps : List (String × PyVal)) (k : String) (xs : List PyVal)
       (cs : List (Option String)),
       xs.mapM update_value = Except.ok cs →
       normalize_params ((k, PyVal.list xs) :: ps) =
         (normalize_params ps).map
           (fun t => (k, String.intercalate "|" (cs.filterMap id)) :: t)) := by
  constructor
  · intro ps k v hs hv
    exact normalize_params_cons_none k v ps (by rw [coerce_param_scalar v hs, hv])
  · intro ps k xs cs hxs
    refine normalize_params_cons_some k _ ps _ ?_
    show (xs.mapM update_value).map _ = _
    rw [hxs]
    rfl

/-- Closed instance of the C4 amended theorem: the key of a `False`
scalar is dropped, and the sequence `[None, True]` is kept as `"1"`. -/
theorem absent_scalar_removed_sequence_always_joined_witness :
    normalize_params [("a", PyVal.bool false), ("b", PyVal.int 3)] =
      normalize_params [("b", PyVal.int 3)]
  ∧ normalize_params [("k", PyVal.list [PyVal.pynone, PyVal.bool true])] =
      (normalize_params []).map
        (fun t => ("k", String.intercalate "|"
          (([none, some "1"] : List (Option String)).filterMap id)) :: t) := by
  exact ⟨absent_scalar_removed_sequence_always_joined.1 [("b", PyVal.int 3)] "a"
      (PyVal.bool false) rfl rfl,
    absent_scalar_removed_sequence_always_joined.2 [] "k" [PyVal.pynone, PyVal.bool true]
      [none, some "1"] rfl⟩

/-- C5: sequence values are pipe-joined with null elements removed, a
`False` boolean removes the key, a `True` boolean becomes the fixed
marker `"1"`, a timezone-aware datetime with a non-zero UTC offset makes
normalization fail with `ValueError`, and a naive or zero-offset datetime
becomes the fixed-format UTC timestamp. -/
theorem normalizer_coercion_rules :
    (∀ (ps : List (String × PyVal)) (k : String) (xs : List PyVal)
       (cs : List (Option String)),
       xs.mapM update_value = Except.ok cs →
       normalize_params ((k, PyVal.list xs) :: ps) =
         (normalize_params ps).map
           (fun t => (k, String.intercalate "|" (cs.filterMap id)) :: t))
  ∧ (∀ ps k, normalize_params ((k, PyVal.bool false) :: ps) = normalize_params ps)
  ∧ (∀ ps k, normalize_params ((k, PyVal.bool true) :: ps) =
       (normalize_params ps).map (fun t => (k, "1") :: t))
  ∧ (∀ (y mo d h mi s : Nat) (off : Int), off ≠ 0 →
       ∀ ps k,
         normalize_params ((k, PyVal.dt y mo d h mi s (some off)) :: ps) = .error ())
  ∧ (∀ (y mo d h mi s : Nat) (tz : Option Int), tz = none ∨ tz = some 0 →
       ∀ ps k,
         normalize_params ((k, PyVal.dt y mo d h mi s tz) :: ps) =
           (normalize_params ps).map (fun t => (k, fmtDt y mo d h mi s) :: t)) := by
  refine ⟨?_, ?_, ?_, ?_, ?_⟩
  · intro ps k xs cs hxs
    refine normalize_params_cons_some k _ ps _ ?_
    show (xs.mapM update_value).map _ = _
    rw [hxs]
    rfl
  · intro ps k
    exact normalize_params_cons_none k _ ps (by simp [coerce_param, update_value])
  · intro ps k
    exact normalize_params_cons_some k _ ps _ (by simp [coerce_param, update_value])
  · intro y mo d h mi s off hoff ps k
    exact normalize_params_cons_fail k _ ps (by simp [coerce_param, update_value, hoff])
  · intro y mo d h mi s tz htz ps k
    refine normalize_params_cons_some k _ ps _ ?_
    rcases htz with h0 | h0 <;> subst h0 <;> simp [coerce_param, update_value]

/-- Closed instance of the C5 theorem on concrete inputs for each rule. -/
theorem normalizer_coercion_rules_witness :
    normalize_params [("k", PyVal.list [PyVal.str "a", PyVal.pynone, PyVal.int 5])] =
      (normalize_params []).map
        (fun t => ("k", String.intercalate "|"
          (([some "a", none, some "5"] : List (Option String)).filterMap id)) :: t)
  ∧ normalize_params [("f", PyVal.bool false)] = normalize_params []
  ∧ normalize_params [("t", PyVal.bool true)] =
      (normalize_params []).map (fun t => ("t", "1") :: t)
  ∧ normalize_params [("d", PyVal.dt 2020 1 2 3 4 5 (some 60))] = .error ()
  ∧ normalize_params [("d", PyVal.dt 2020 1 2 3 4 5 none)] =
      (normalize_params []).map (fun t => ("d", fmtDt 2020 1 2 3 4 5) :: t) := by
  exact ⟨normalizer_coercion_rules.1 [] "k" _ [some "a", none, some "5"] rfl,
    normalizer_coercion_rules.2.1 [] "f",
    normalizer_coercion_rules.2.2.1 [] "t",
    normalizer_coercion_rules.2.2.2.1 2020 1 2 3 4 5 60 (by decide) [] "d",
    normalizer_coercion_rules.2.2.2.2 2020 1 2 3 4 5 none (Or.inl rfl) [] "d"⟩

/-- A JSON value that is neither a mapping nor a list (the overwrite
branch of the merge). -/
def isScalarJ : JVal → Bool
  | .obj _ => false
  | .arr _ => false
  | _ => true

/-- C6 counterexample: the "otherwise the incoming value overwrites"
clause fails on every mixed-type field.  With an existing scalar field
and an incoming empty-mapping value, the merge recurses into the scalar
(a no-op) instead of overwriting it; with a non-empty incoming mapping
over a scalar it raises a TypeError instead of overwriting; and with an
incoming list over a scalar (not "both ordered collections", so the
claim again demands an overwrite) the `a[k] + val` concatenation raises
a TypeError instead. -/
theorem merge_incoming_mapping_does_not_overwrite_scalar :
    merge_page (.obj [("f", .num 7)]) [("f", .obj [])] = some (.obj [("f", .num 7)])
  ∧ merge_page (.obj [("f", .num 7)]) [("f", .obj [])] ≠ some (.obj [("f", .obj [])])
  ∧ merge_page (.obj [("f", .num 7)]) [("f", .obj [("g", .num 1)])] = none
  ∧ merge_page (.obj [("f", .num 7)]) [("f", .arr [.num 1])] = none
  ∧ merge_page (.obj [("f", .num 7)]) [("f", .arr [.num 1])] ≠
      some (.obj [("f", .arr [.num 1])]) := by
  refine ⟨rfl, ?_, rfl, rfl, ?_⟩
  · intro h
    rw [show merge_page (.obj [("f", .num 7)]) [("f", .obj [])] =
          some (.obj [("f", .num 7)]) from rfl] at h
    simp at h
  · intro h
    rw [show merge_page (.obj [("f", .num 7)]) [("f", .arr [.num 1])] =
          none from rfl] at h
    simp at h

/-- C6 amended: the merge rule keys on the INCOMING value's type only.
For each field of the incoming fragment: an incoming mapping merges
recursively into whatever the existing value is (failing, not
overwriting, when the existing value is not a mapping and the incoming
one is non-empty); an incoming list concatenates onto an existing list
(existing elements first) and fails on any non-list existing value; any
other incoming value overwrites; a fresh field is appended.  Two
fragments for the same identifier with matching revision markers, one
with only field a and the other with only field b, still yield a single
entity carrying both fields. -/
theorem merge_rule_keyed_on_incoming_type :
    (∀ (fa fv : List (String × JVal)) (k : String) (av : JVal),
       alookup fa k = some av →
       merge_page (.obj fa) [(k, .obj fv)] =
         (merge_page av fv).map (fun m => .obj (setKey fa k m)))
  ∧ (∀ (fa : List (String × JVal)) (k : String) (xs ys : List JVal),
       alookup fa k = some (.arr ys) →
       merge_page (.obj fa) [(k, .arr xs)] =
         some (.obj (setKey fa k (.arr (ys ++ xs)))))
  ∧ (∀ (fa : List (String × JVal)) (k : String) (xs : List JVal) (av : JVal),
       alookup fa k = some av → (∀ ys, av ≠ .arr ys) →
       merge_page (.obj fa) [(k, .arr xs)] = none)
  ∧ (∀ (fa : List (String × JVal)) (k : String) (av v : JVal),
       alookup fa k = some av → isScalarJ v = true →
       merge_page (.obj fa) [(k, v)] = some (.obj (setKey fa k v)))
  ∧ (∀ (fa : List (String × JVal)) (k : String) (v : JVal),
       alookup fa k = none →
       merge_page (.obj fa) [(k, v)] = some (.obj (fa ++ [(k, v)])))
  ∧ (∀ (pid rev va vb : Int),
       queryPagesRun
         [.obj [("pages", .arr [.obj [("pageid", .num pid), ("lastrevid", .num rev),
                                      ("a", .num va)]])],
          .obj [("pages", .arr [.obj [("pageid", .num pid), ("lastrevid", .num rev),
                                      ("b", .num vb)]])]] =
         ([.obj [("pageid", .num pid), ("lastrevid", .num rev),
                 ("a", .num va), ("b", .num vb)]], .ok)) := by
  refine ⟨?_, ?_, ?_, ?_, ?_, ?_⟩
  · intro fa fv k av h
    cases hm : merge_page av fv <;> simp [merge_page, h, hm, Option.map]
  · intro fa k xs ys h
    simp [merge_page, h]
  · intro fa k xs av h hnav
    cases av <;> first
      | exact absurd rfl (hnav _)
      | simp [merge_page, h]
  · intro fa k av v h hv
    cases v <;> simp_all [isScalarJ, merge_page, h]
  · intro fa k v h
    simp [merge_page, h]
  · intro pid rev va vb
    simp [queryPagesRun, qpGo, qpPages, qpPage, inOp, pyGet, alookup, hasKey,
      dictGet, dictSet, dictDel, setContains, setAdd, jvalHashable, merge_page,
      setKey, pyEq, pyIter, Bind.bind, Except.bind, pure, Except.pure]

/-- Closed instance of the C6 amended theorem: one concrete input for
each branch of the rule, and the two-fragment both-fields scenario. -/
theorem merge_rule_keyed_on_incoming_type_witness :
    merge_page (.obj [("f", .num 7)]) [("f", .obj [("g", .num 1)])] =
      (merge_page (.num 7) [("g", .num 1)]).map
        (fun m => .obj (setKey [("f", .num 7)] "f" m))
  ∧ merge_page (.obj [("l", .arr [.num 1])]) [("l", .arr [.num 2])] =
      some (.obj (setKey [("l", .arr [.num 1])] "l" (.arr ([.num 1] ++ [.num 2]))))
  ∧ merge_page (.obj [("s", .num 1)]) [("s", .arr [.num 2])] = none
  ∧ merge_page (.obj [("s", .num 1)]) [("s", .num 2)] =
      some (.obj (setKey [("s", .num 1)] "s" (.num 2)))
  ∧ merge_page (.obj [("s", .num 1)]) [("t", .num 2)] =
      some (.obj ([("s", .num 1)] ++ [("t", .num 2)]))
  ∧ queryPagesRun
      [.obj [("pages", .arr [.obj [("pageid", .num 1), ("lastrevid", .num 10),
                                   ("a", .num 100)]])],
       .obj [("pages", .arr [.obj [("pageid", .num 1), ("lastrevid", .num 10),
                                   ("b", .num 200)]])]] =
      ([.obj [("pageid", .num 1), ("lastrevid", .num 10),
              ("a", .num 100), ("b", .num 200)]], .ok) :=
  ⟨merge_rule_keyed_on_incoming_type.1 [("f", .num 7)] [("g", .num 1)] "f" (.num 7) rfl,
   merge_rule_keyed_on_incoming_type.2.1 [("l", .arr [.num 1])] "l" [.num 2] [.num 1] rfl,
   merge_rule_keyed_on_incoming_type.2.2.1 [("s", .num 1)] "s" [.num 2] (.num 1) rfl
     (by intro ys; simp),
   merge_rule_keyed_on_incoming_type.2.2.2.1 [("s", .num 1)] "s" (.num 1) (.num 2) rfl rfl,
   merge_rule_keyed_on_incoming_type.2.2.2.2.1 [("s", .num 1)] "t" (.num 2) rfl,
   merge_rule_keyed_on_incoming_type.2.2.2.2.2 1 10 100 200⟩

/-- C7: a stream whose two responses carry fragments for the same page id
with differing revision markers (plus an unrelated normal page) yields no
entity for that id; the unrelated entity is yielded normally, and only
after all normal yields does the stream end with `ApiPagesModifiedError`
carrying exactly that id. -/
theorem modified_page_suppressed_and_reported_at_end
    (pid oid r1 r2 : Int) (hne : r1 ≠ r2) (hid : oid ≠ pid) :
    queryPagesRun
      [.obj [("pages", .arr [.obj [("pageid", .num pid), ("lastrevid", .num r1)],
                             .obj [("pageid", .num oid)]])],
       .obj [("pages", .arr [.obj [("pageid", .num pid), ("lastrevid", .num r2)]])]] =
      ([.obj [("pageid", .num oid)]], .pagesModified [.num pid]) := by
  simp [queryPagesRun, qpGo, qpPages, qpPage, inOp, pyGet, alookup, hasKey,
    dictGet, dictSet, dictDel, setContains, setAdd, jvalHashable, merge_page,
    setKey, pyEq, pyIter, Bind.bind, Except.bind, pure, Except.pure,
    hne, hne.symm, hid, hid.symm]

/-- Closed instance of the C7 theorem at page id 1, other id 2, revision
markers 10 and 11. -/
theorem modified_page_suppressed_and_reported_at_end_witness :
    queryPagesRun
      [.obj [("pages", .arr [.obj [("pageid", .num 1), ("lastrevid", .num 10)],
                             .obj [("pageid", .num 2)]])],
       .obj [("pages", .arr [.obj [("pageid", .num 1), ("lastrevid", .num 11)]])]] =
      ([.obj [("pageid", .num 2)]], .pagesModified [.num 1]) :=
  modified_page_suppressed_and_reported_at_end 1 2 10 11 (by decide) (by decide)

/-- C10: an incoming fragment for a buffered page id that lacks the
`lastrevid` revision marker is merged unconditionally: the entity is
yielded with both fragments' fields and the stream ends normally, the id
never entering the modified set. -/
theorem fragment_without_revision_marker_merges_unconditionally
    (pid r1 va vb : Int) :
    queryPagesRun
      [.obj [("pages", .arr [.obj [("pageid", .num pid), ("lastrevid", .num r1),
                                   ("a", .num va)]])],
       .obj [("pages", .arr [.obj [("pageid", .num pid), ("b", .num vb)]])]] =
      ([.obj [("pageid", .num pid), ("lastrevid", .num r1),
              ("a", .num va), ("b", .num vb)]], .ok) := by
  simp [queryPagesRun, qpGo, qpPages, qpPage, inOp, pyGet, alookup, hasKey,
    dictGet, dictSet, dictDel, setContains, setAdd, jvalHashable, merge_page,
    setKey, pyEq, pyIter, Bind.bind, Except.bind, pure, Except.pure]

/-- C8: with three responses of which only the first two carry a
`continue` object (each carrying the action's payload key), the
continuation driver yields exactly the three payloads and terminates; if
the third response also carried `continue`, the driver would instead ask
for a fourth response, so termination is decided solely by the absence of
the `continue` key. -/
theorem three_responses_two_continues_yield_three_pages
    (action : String) (f1 f2 f3 : List (String × JVal)) (p1 p2 p3 : JVal)
    (h1 : alookup f1 action = some p1) (h2 : alookup f2 action = some p2)
    (h3 : alookup f3 action = some p3)
    (c1 : hasKey f1 "continue" = true) (c2 : hasKey f2 "continue" = true)
    (c3 : hasKey f3 "continue" = false) :
    iterGo action [.obj f1, .obj f2, .obj f3] = ([p1, p2, p3], .finished)
  ∧ (∀ (f4 : List (String × JVal)) (p4 : JVal),
       alookup f4 action = some p4 → hasKey f4 "continue" = true →
       iterGo action [.obj f1, .obj f2, .obj f4] = ([p1, p2, p4], .needMore)) := by
  simp only [hasKey] at c1 c2 c3
  constructor
  · simp [iterGo, inOp, pyGet, hasKey, h1, h2, h3, c1, c2, c3]
  · intro f4 p4 h4 c4
    simp only [hasKey] at c4
    simp [iterGo, inOp, pyGet, hasKey, h1, h2, h4, c1, c2, c4]

/-- Closed instance of the C8 theorem: three single-field responses for
action `query`, and a variant third response that still continues. -/
theorem three_responses_two_continues_yield_three_pages_witness :
    iterGo "query" [.obj [("query", .num 1), ("continue", .obj [])],
                    .obj [("query", .num 2), ("continue", .obj [])],
                    .obj [("query", .num 3)]] = ([.num 1, .num 2, .num 3], .finished)
  ∧ iterGo "query" [.obj [("query", .num 1), ("continue", .obj [])],
                    .obj [("query", .num 2), ("continue", .obj [])],
                    .obj [("query", .num 4), ("continue", .obj [])]] =
      ([.num 1, .num 2, .num 4], .needMore) := by
  have h := three_responses_two_continues_yield_three_pages "query"
    [("query", .num 1), ("continue", .obj [])]
    [("query", .num 2), ("continue", .obj [])]
    [("query", .num 3)] (.num 1) (.num 2) (.num 3)
    rfl rfl rfl rfl rfl rfl
  exact ⟨h.1, h.2 [("query", .num 4), ("continue", .obj [])] (.num 4) rfl rfl⟩

/-- C9: a response with a 4xx/5xx status makes `Site.request` raise
`ApiError('Call failed', ...)` at once, carrying the status code and the
decoded JSON body (or the raw text body when the body is not valid
JSON); the error propagates out of the call loop without consuming any
further attempt, since the loop catches only `ConnectionError` and
retries only connection failures and maxlag responses. -/
theorem error_status_raises_immediately_without_retry
    (cfg : SiteCfg) (hpre : cfg.pre_request_delay = 0)
    (status : Nat) (h4 : 400 ≤ status) (h6 : status < 600)
    (ra : Option String) (bj : Option JVal) (bt : String) (rest : List Attempt) :
    callRun cfg
      (.resp { status := status, retryAfter := ra, bodyJson := bj, bodyText := bt }
        :: rest) =
      ([], .httpError status
        (match bj with
         | some j => .inl j
         | none => .inr bt)) := by
  have hok : respOk status = false := by simp [respOk, h4, h6]
  cases bj <;> simp [callRun, callLoop, hok, hpre, requestErrBody]

/-- Closed instance of the C9 theorem: a 503 with a non-JSON body fails
at once with the raw text attached, ignoring the rest of the stream. -/
theorem error_status_raises_immediately_without_retry_witness :
    callRun {}
      (.resp { status := 503, retryAfter := none, bodyJson := none,
               bodyText := "upstream connect error" } :: [.connError]) =
      ([], .httpError 503 (.inr "upstream connect error")) :=
  error_status_raises_immediately_without_retry {} rfl 503 (by decide) (by decide)
    none none "upstream connect error" [.connError]

/-- The configuration of the C2 failing input: connection-failure retry
budget 0 and a logger on which WARNING logging is disabled (for the
default `logging.Logger` this is any effective level above WARNING). -/
def cfgConnQuiet : SiteCfg :=
  { retry_on_connection_error := 0, warnEnabled := false, infoEnabled := false }

/-- C2 (code bug): with connection-failure budget 0 the claim requires
the transport failure to propagate immediately with no retry sleep, and
the source intends exactly that (it logs "ConnectionError exhausted
retries" and raises) — but the `raise exc` sits inside the
`logger.isEnabledFor(...)` guard, so whenever WARNING logging is
disabled the exhausted-budget branch is never taken: after any number of
consecutive connection failures the loop has slept each time and is
still retrying, and the failure never propagates.  With WARNING logging
enabled the loop does behave as claimed (second conjunct: budget 0,
immediate propagation, no sleep). -/
theorem conn_budget_ignored_when_warning_logging_disabled :
    (∀ n : Nat,
       callRun cfgConnQuiet (List.replicate n .connError) =
         (List.replicate n (.connWait 5), .outOfAttempts))
  ∧ callRun { retry_on_connection_error := 0 } [.connError] = ([], .connFailure) := by
  constructor
  · have key : ∀ (n tc tcc : Nat),
        callLoop cfgConnQuiet tc tcc (List.replicate n .connError) =
          (List.replicate n (.connWait 5), .outOfAttempts) := by
      intro n
      induction n with
      | zero => intro tc tcc; simp [callLoop]
      | succ m ih =>
          intro tc tcc
          have hw : cfgConnQuiet.warnEnabled = false := rfl
          have hp : cfgConnQuiet.pre_request_delay = 0 := rfl
          have hc : cfgConnQuiet.retry_after_conn = 5 := rfl
          simp [List.replicate_succ, callLoop, hw, hp, hc, ih]
    intro n
    exact key n 0 0
  · simp [callRun, callLoop]

/-- A response the loop classifies as a maxlag error: OK HTTP status and
a JSON body whose `error.code` is the string `maxlag`. -/
def IsMaxlagResp (r : HttpResponse) : Prop :=
  respOk r.status = true ∧
  ∃ fs e, r.bodyJson = some (.obj fs) ∧ alookup fs "error" = some (.obj e) ∧
    alookup e "code" = some (.str "maxlag")

lemma classifyMaxlag_true (fs e : List (String × JVal))
    (hfe : alookup fs "error" = some (.obj e))
    (hc : alookup e "code" = some (.str "maxlag")) :
    classifyMaxlag (.obj fs) = .ok true := by
  simp [classifyMaxlag, pyGet, hfe, hc, pyEq]

lemma resolve_with_error (cfg : SiteCfg) (fs : List (String × JVal)) (e : JVal)
    (h : alookup fs "error" = some e) : resolve cfg (.obj fs) = .serverError e := by
  simp [resolve, inOp, hasKey, h, pyGet]

lemma callLoop_maxlag_retry_step (cfg : SiteCfg) (hpre : cfg.pre_request_delay = 0)
    (r : HttpResponse) (q : ℚ) (hr : IsMaxlagResp r) (hra : retryAfterOf r = some q)
    (tc tcc : Nat)
    (hbud : ¬(0 ≤ cfg.retry_on_lag_error ∧
              cfg.retry_on_lag_error < ((tc + 1 : Nat) : Int)))
    (tail : List Attempt) :
    callLoop cfg tc tcc (.resp r :: tail) =
      (.lagWait q :: (callLoop cfg (tc + 1) (tcc + 1) tail).1,
       (callLoop cfg (tc + 1) (tcc + 1) tail).2) := by
  obtain ⟨hok, fs, e, hb, hfe, hc⟩ := hr
  simp [callLoop, hok, hb, classifyMaxlag_true fs e hfe hc, hra, hpre, hbud]
  intro hge
  push_cast at hbud ⊢
  omega

lemma callLoop_maxlag_prefix (cfg : SiteCfg) (hpre : cfg.pre_request_delay = 0)
    (rs : List (HttpResponse × ℚ)) :
    ∀ (tc tcc : Nat),
      (∀ p ∈ rs, IsMaxlagResp p.1 ∧ retryAfterOf p.1 = some p.2) →
      ((tc : Int) + rs.length ≤ cfg.retry_on_lag_error ∨ cfg.retry_on_lag_error < 0) →
      ∀ (tail : List Attempt),
        callLoop cfg tc tcc (rs.map (fun p => .resp p.1) ++ tail) =
          (rs.map (fun p => SleepEvent.lagWait p.2) ++
             (callLoop cfg (tc + rs.length) (tcc + rs.length) tail).1,
           (callLoop cfg (tc + rs.length) (tcc + rs.length) tail).2) := by
  induction rs with
  | nil => intro tc tcc _ _ tail; simp
  | cons p rs ih =>
      intro tc tcc h hbud tail
      obtain ⟨hr, hq⟩ := h p (by simp)
      have hbud1 : ¬(0 ≤ cfg.retry_on_lag_error ∧
          cfg.retry_on_lag_error < ((tc + 1 : Nat) : Int)) := by
        intro hcon
        rcases hbud with hb | hb
        · have h2 := hcon.2
          rw [List.length_cons] at hb
          push_cast at hb h2
          omega
        · have h1 := hcon.1
          omega
      have hbud2 : (((tc + 1 : Nat) : Int) + rs.length ≤ cfg.retry_on_lag_error ∨
          cfg.retry_on_lag_error < 0) := by
        rcases hbud with hb | hb
        · left
          rw [List.length_cons] at hb
          push_cast at hb ⊢
          omega
        · right; exact hb
      rw [List.map_cons, List.cons_append,
        callLoop_maxlag_retry_step cfg hpre p.1 p.2 hr hq tc tcc hbud1 _,
        ih (tc + 1) (tcc + 1) (fun p hp => h p (by simp [hp])) hbud2 tail]
      have e1 : tc + 1 + rs.length = tc + (rs.length + 1) := by omega
      have e2 : tcc + 1 + rs.length = tcc + (rs.length + 1) := by omega
      simp [e1, e2]

/-- C1: when the maxlag retry budget L is exhausted — the server reports
`error.code == 'maxlag'` L+1 times — the call resolves as
`ApiError('Server API Error', ...)` carrying the full error payload of
the last maxlag response, and never returns the last maxlag body as a
success value. -/
theorem maxlag_exhausted_resolves_as_server_error
    (cfg : SiteCfg) (hpre : cfg.pre_request_delay = 0)
    (L : Nat) (hL : cfg.retry_on_lag_error = (L : Int))
    (rs : List (HttpResponse × ℚ)) (hlen : rs.length = L)
    (hml : ∀ p ∈ rs, IsMaxlagResp p.1 ∧ retryAfterOf p.1 = some p.2)
    (rl : HttpResponse) (ql : ℚ) (hok : respOk rl.status = true)
    (fsl el : List (String × JVal))
    (hb : rl.bodyJson = some (.obj fsl))
    (hfe : alookup fsl "error" = some (.obj el))
    (hcode : alookup el "code" = some (.str "maxlag"))
    (hra : retryAfterOf rl = some ql) :
    callRun cfg (rs.map (fun p => .resp p.1) ++ [.resp rl]) =
      (rs.map (fun p => SleepEvent.lagWait p.2), .serverError (.obj el))
  ∧ ∀ d, (callRun cfg (rs.map (fun p => .resp p.1) ++ [.resp rl])).2 ≠ .success d := by
  have hrun := callLoop_maxlag_prefix cfg hpre rs 0 0 hml
    (by rw [hlen, hL]; left; simp) [.resp rl]
  have hnr : (0 ≤ cfg.retry_on_lag_error ∧
      cfg.retry_on_lag_error < ((0 + rs.length + 1 : Nat) : Int)) := by
    constructor
    · rw [hL]; positivity
    · rw [hL, ← hlen]; push_cast; omega
  have hfin : callLoop cfg (0 + rs.length) (0 + rs.length) [.resp rl] =
      ([], .serverError (.obj el)) := by
    simp [callLoop, hok, hb, classifyMaxlag_true fsl el hfe hcode, hra, hpre, hnr,
      resolve_with_error cfg fsl (.obj el) hfe]
    rw [hL, ← hlen]
    omega
  rw [callRun, hrun, hfin]
  constructor
  · simp
  · intro d
    simp

/-- Closed instance of the C1 theorem: budget 1, two maxlag responses;
the call resolves as a server error carrying the second maxlag payload
after one retry sleep. -/
theorem maxlag_exhausted_resolves_as_server_error_witness :
    callRun { retry_on_lag_error := 1 }
      [.resp { status := 200, retryAfter := some "7",
               bodyJson := some (.obj [("error", .obj [("code", .str "maxlag"),
                                                       ("lag", .num 3)])]) },
       .resp { status := 200, retryAfter := none,
               bodyJson := some (.obj [("error", .obj [("code", .str "maxlag"),
                                                       ("lag", .num 9)])]) }] =
      ([SleepEvent.lagWait 7],
       .serverError (.obj [("code", .str "maxlag"), ("lag", .num 9)])) := by
  have h := maxlag_exhausted_resolves_as_server_error { retry_on_lag_error := 1 } rfl
    1 rfl
    [({ status := 200, retryAfter := some "7",
        bodyJson := some (.obj [("error", .obj [("code", .str "maxlag"),
                                                ("lag", .num 3)])]) }, 7)]
    rfl
    (by
      intro p hp
      simp at hp
      subst hp
      exact ⟨⟨by decide, _, _, rfl, rfl, rfl⟩, by decide⟩)
    { status := 200, retryAfter := none,
      bodyJson := some (.obj [("error", .obj [("code", .str "maxlag"),
                                              ("lag", .num 9)])]) }
    5 (by decide) _ _ rfl rfl rfl rfl
  exact h.1

/-- C3 counterexample: a maxlag response whose `Retry-After` header is
present but unparseable does not fall back to the 5-second default — the
`float()` call raises `ValueError` and the call aborts with no sleep,
instead of sleeping and returning the following successful body as the
claim requires. -/
theorem retry_after_unparseable_raises_value_error :
    callRun {}
      [.resp { status := 200, retryAfter := some "xyz",
               bodyJson := some (.obj [("error", .obj [("code", .str "maxlag")])]) },
       .resp { status := 200, retryAfter := none,
               bodyJson := some (.obj [("ok", .bool true)]) }] = ([], .valueError)
  ∧ ([], CallOutcome.valueError) ≠
      ([SleepEvent.lagWait 5], CallOutcome.success (.obj [("ok", .bool true)])) := by
  constructor
  · rfl
  · intro h
    simp at h

/-- C3 amended: for K maxlag responses within the retry budget followed
by a success, the call sleeps exactly K times, each for the duration the
response's `Retry-After` header parses to — 5 seconds when the header is
ABSENT (a present but unparseable header instead raises `ValueError`,
see the counterexample) — and returns the final successful body. -/
theorem maxlag_retries_sleep_retry_after_then_succeed
    (cfg : SiteCfg) (hpre : cfg.pre_request_delay = 0)
    (rs : List (HttpResponse × ℚ))
    (hml : ∀ p ∈ rs, IsMaxlagResp p.1 ∧ retryAfterOf p.1 = some p.2)
    (hbud : ((rs.length : Int) ≤ cfg.retry_on_lag_error ∨ cfg.retry_on_lag_error < 0))
    (rf : HttpResponse) (hok : respOk rf.status = true)
    (fs : List (String × JVal)) (hb : rf.bodyJson = some (.obj fs))
    (hne : alookup fs "error" = none) (hnw : alookup fs "warnings" = none) :
    callRun cfg (rs.map (fun p => .resp p.1) ++ [.resp rf]) =
      (rs.map (fun p => SleepEvent.lagWait p.2), .success (.obj fs)) := by
  have hrun := callLoop_maxlag_prefix cfg hpre rs 0 0 hml (by simpa using hbud)
    [.resp rf]
  have hcls : classifyMaxlag (.obj fs) = .ok false := by
    simp [classifyMaxlag, pyGet, hne]
  have hres : resolve cfg (.obj fs) = .success (.obj fs) := by
    simp [resolve, inOp, hasKey, hne, hnw]
  have hfin : callLoop cfg (0 + rs.length) (0 + rs.length) [.resp rf] =
      ([], .success (.obj fs)) := by
    simp [callLoop, hok, hb, hcls, hres, hpre]
  rw [callRun, hrun, hfin]
  simp

/-- Closed instance of the C3 amended theorem: two maxlag responses, one
with `Retry-After: 7` and one with the header absent (default 5), then a
success; the call sleeps 7 then 5 and returns the successful body. -/
theorem maxlag_retries_sleep_retry_after_then_succeed_witness :
    callRun {}
      [.resp { status := 200, retryAfter := some "7",
               bodyJson := some (.obj [("error", .obj [("code", .str "maxlag"),
                                                       ("lag", .num 3)])]) },
       .resp { status := 200, retryAfter := none,
               bodyJson := some (.obj [("error", .obj [("code", .str "maxlag"),
                                                       ("lag", .num 4)])]) },
       .resp { status := 200, retryAfter := none,
               bodyJson := some (.obj [("batchcomplete", .bool true)]) }] =
      ([SleepEvent.lagWait 7, SleepEvent.lagWait 5],
       .success (.obj [("batchcomplete", .bool true)])) := by
  have h := maxlag_retries_sleep_retry_after_then_succeed {} rfl
    [({ status := 200, retryAfter := some "7",
        bodyJson := some (.obj [("error", .obj [("code", .str "maxlag"),
                                                ("lag", .num 3)])]) }, 7),
     ({ status := 200, retryAfter := none,
        bodyJson := some (.obj [("error", .obj [("code", .str "maxlag"),
                                                ("lag", .num 4)])]) }, 5)]
    (by
      intro p hp
      simp at hp
      rcases hp with hp | hp <;> subst hp
      · exact ⟨⟨by decide, _, _, rfl, rfl, rfl⟩, by decide⟩
      · exact ⟨⟨by decide, _, _, rfl, rfl, rfl⟩, rfl⟩)
    (by left; decide)
    { status := 200, retryAfter := none,
      bodyJson := some (.obj [("batchcomplete", .bool true)]) }
    (by decide) _ rfl rfl rfl
  exact h

end PyWikiApi
